import Mathlib

/-!
Verification of the per-node provisioning engine of this repository against
its natural-language specification.

Each section shallowly embeds the Go functions a claim is about:
pure functions become Lean functions, stateful code becomes explicit state
passing, machine integers become Nat/Int, fallible code returns
Except/Option.  The embedded definitions keep the source names where Lean
allows it, and each carries a comment pointing at the Go source location it
was translated from.
-/

/- ============================================================
   Workload types (src/pkg/gridtypes/zos: NetworkType, VolumeType,
   PublicIPType, ...).  The set of recognized workload kinds is closed.
   ============================================================ -/

/-- The closed set of workload types recognized by the engine. -/
inductive WorkloadType where
  | network
  | volume
  | publicIP
  | container
  | virtualMachine
  | zdb
  | kubernetes
deriving DecidableEq, Repr

/- ============================================================
   C1: startup priority order configured by the provisiond daemon
   (src/cmds/modules/provisiond/main.go, provision.New call with
   provision.WithStartupOrder / provision.WithRerunAll options).
   ============================================================ -/

/-- Options consumed by `provision.New`; the daemon sets them through the
functional options `WithStartupOrder` and `WithRerunAll`
(src/cmds/modules/provisiond/main.go lines 188-202). -/
structure EngineOptions where
  startupOrder : List WorkloadType
  rerunAll : Bool
deriving DecidableEq, Repr

/-- Engine options before any functional option is applied. -/
def defaultEngineOptions : EngineOptions :=
  { startupOrder := [], rerunAll := false }

/-- `provision.WithStartupOrder(types...)`: records the list of types that
must be processed first at boot, in the given order. -/
def WithStartupOrder (types : List WorkloadType) (o : EngineOptions) : EngineOptions :=
  { o with startupOrder := types }

/-- `provision.WithRerunAll(b)`. -/
def WithRerunAll (b : Bool) (o : EngineOptions) : EngineOptions :=
  { o with rerunAll := b }

/-- The exact options the provisiond daemon passes to `provision.New`
(src/cmds/modules/provisiond/main.go lines 188-203):
`WithStartupOrder(zos.VolumeType, zos.NetworkType, zos.PublicIPType)` and
`WithRerunAll(app.IsFirstBoot(module))` (the latter abstracted as the
parameter `firstBoot`). -/
def provisiondEngineOptions (firstBoot : Bool) : EngineOptions :=
  WithRerunAll firstBoot
    (WithStartupOrder [WorkloadType.volume, WorkloadType.network, WorkloadType.publicIP]
      defaultEngineOptions)

/-- C1 counterexample: the claim says the daemon configures the startup
type-priority list (network_resource, volume, public_ip); the list actually
configured in src/cmds/modules/provisiond/main.go does not equal that. -/
theorem c1_counterexample_order_not_network_first :
    ¬ (provisiondEngineOptions false).startupOrder =
      [WorkloadType.network, WorkloadType.volume, WorkloadType.publicIP] := by
  decide

/-- C1 (amended): at engine startup the daemon configures the startup
type-priority list `volume`, then `network_resource`, then `public_ip`, in
that order (remaining types follow). -/
theorem c1_startup_order_volume_first (firstBoot : Bool) :
    (provisiondEngineOptions firstBoot).startupOrder =
      [WorkloadType.volume, WorkloadType.network, WorkloadType.publicIP] := rfl

/- ============================================================
   C6: Reservation.Expired
   (src/tools/explorer/pkg/workloads/types/reservation.go lines 255-258):
     func (r *Reservation) Expired() bool \x7b
         return time.Until(r.DataReservation.ExpirationReservation.Time) <= 0
     \x7d
   Time instants are modelled as Int (Unix seconds); `time.Until(t)`
   is `t - now`.
   ============================================================ -/

/-- The part of the explorer `Reservation` that `Expired` reads:
`DataReservation.ExpirationReservation` as a Unix timestamp. -/
structure ExplorerReservation where
  expirationReservation : Int
deriving DecidableEq, Repr

/-- `time.Until(t)` at current instant `now`: the remaining duration. -/
def timeUntil (now t : Int) : Int := t - now

/-- `Reservation.Expired` from
src/tools/explorer/pkg/workloads/types/reservation.go, with the current
time passed explicitly. -/
def ExplorerReservation.Expired (now : Int) (r : ExplorerReservation) : Bool :=
  decide (timeUntil now r.expirationReservation ≤ 0)

/-- C6: `Reservation.Expired` returns true exactly when the remaining time
until `ExpirationReservation` is at most zero, i.e. iff
`expires_at <= now`. -/
theorem c6_expired_iff_deadline_passed (now : Int) (r : ExplorerReservation) :
    r.Expired now = true ↔ r.expirationReservation ≤ now := by
  simp only [ExplorerReservation.Expired, timeUntil, decide_eq_true_eq]
  omega

/- ============================================================
   C9: getNodeReserved (src/cmds/modules/provisiond/main.go lines 275-295).
   `primitives.Counters` holds atomic uint64 counters; `Increment(n)` adds
   n.  `gib = 1024 * 1024 * 1024` as in the Go source.
   ============================================================ -/

/-- `gib` constant from src/cmds/modules/provisiond/main.go. -/
def gib : Nat := 1024 * 1024 * 1024

/-- The four resource counters of `primitives.Counters` that
`getNodeReserved` touches (each an atomic uint64, starting at zero). -/
structure Counters where
  cru : Nat := 0
  mru : Nat := 0
  hru : Nat := 0
  sru : Nat := 0
deriving DecidableEq, Repr

/-- The part of the cache filesystem info (`storage.GetCacheFS`) that
`getNodeReserved` reads: the disk device type and `Usage.Size` in bytes.
The device-type constants `zos.HDDDevice` / `zos.SSDDevice` are the strings
"hdd" / "ssd". -/
structure CacheFS where
  diskType : String
  usageSize : Nat
deriving DecidableEq, Repr

/-- `getNodeReserved` from src/cmds/modules/provisiond/main.go: switches on
the cache disk type, charges `Usage.Size / gib` to HRU (HDD) or SRU (SSD),
fails on any other device type, and always adds 2 to MRU on success. -/
def getNodeReserved (fs : CacheFS) : Except String Counters :=
  if fs.diskType = "hdd" then
    Except.ok { cru := 0, mru := 2, hru := fs.usageSize / gib, sru := 0 }
  else if fs.diskType = "ssd" then
    Except.ok { cru := 0, mru := 2, hru := 0, sru := fs.usageSize / gib }
  else
    Except.error ("unknown cache disk type " ++ fs.diskType)

/-- C9: the node's self-reserved capacity always includes exactly 2 units
of MRU, charges the cache size in whole GiB to HRU for an HDD cache disk
and to SRU for an SSD cache disk, and errors (reserving nothing) for any
other disk type. -/
theorem c9_getNodeReserved_spec (fs : CacheFS) :
    (fs.diskType = "hdd" →
      getNodeReserved fs = Except.ok { cru := 0, mru := 2, hru := fs.usageSize / gib, sru := 0 }) ∧
    (fs.diskType = "ssd" →
      getNodeReserved fs = Except.ok { cru := 0, mru := 2, hru := 0, sru := fs.usageSize / gib }) ∧
    (fs.diskType ≠ "hdd" → fs.diskType ≠ "ssd" →
      ∃ e, getNodeReserved fs = Except.error e) := by
  refine ⟨fun h => ?_, fun h => ?_, fun h1 h2 => ?_⟩
  · simp [getNodeReserved, h]
  · simp [getNodeReserved, h]
  · exact ⟨"unknown cache disk type " ++ fs.diskType, by simp [getNodeReserved, h1, h2]⟩

/-- C9 witness: evaluating `getNodeReserved` through the theorem at
concrete cache filesystems of each disk type. -/
theorem c9_getNodeReserved_spec_witness :
    getNodeReserved { diskType := "hdd", usageSize := 5 * gib + 123 } =
      Except.ok { cru := 0, mru := 2, hru := 5, sru := 0 } ∧
    getNodeReserved { diskType := "ssd", usageSize := 2 * gib } =
      Except.ok { cru := 0, mru := 2, hru := 0, sru := 2 } ∧
    ∃ e, getNodeReserved { diskType := "nvme", usageSize := 7 } = Except.error e := by
  refine ⟨?_, ?_, ?_⟩
  · have h := (c9_getNodeReserved_spec { diskType := "hdd", usageSize := 5 * gib + 123 }).1 rfl
    rw [h]
    have : (5 * gib + 123) / gib = 5 := by norm_num [gib]
    rw [this]
  · have h := (c9_getNodeReserved_spec { diskType := "ssd", usageSize := 2 * gib }).2.1 rfl
    rw [h]
    have : (2 * gib) / gib = 2 := by norm_num [gib]
    rw [this]
  · exact (c9_getNodeReserved_spec { diskType := "nvme", usageSize := 7 }).2.2
      (by decide) (by decide)

/- ============================================================
   C2: capacity accounting of the reporter
   (src/cmds/modules/provisiond/reported.go).
   `Reporter.user` walks, per workload type, every stored reservation of a
   user, skips those without a result, and adds `wl.Capacity()` for every
   reservation `Reporter.shouldCount` accepts (lines 169-184).  Timestamps
   are Ints; `result.Created.Time().Before(since)` is `created < since`.
   The per-type workload counters of `Consumption` and the error
   accumulation (`many`) are not modelled: no claim touches them, and
   `Capacity()` is a pure derivation modelled as a stored field.
   ============================================================ -/

/-- `gridtypes.ResultState` (unknown / ok / error / deleted). -/
inductive ResultState where
  | unknown
  | stateOk
  | stateError
  | deleted
deriving DecidableEq, Repr

/-- The part of `gridtypes.Result` read by the reporter: the state and the
creation timestamp of the result. -/
structure WLResult where
  state : ResultState
  created : Int
deriving DecidableEq, Repr

/-- `gridtypes.Capacity` resource totals (uint64 counters). -/
structure Capacity where
  cru : Nat := 0
  mru : Nat := 0
  hru : Nat := 0
  sru : Nat := 0
deriving DecidableEq, Repr

/-- `Capacity.Add`: componentwise addition. -/
def Capacity.add (a b : Capacity) : Capacity :=
  { cru := a.cru + b.cru, mru := a.mru + b.mru,
    hru := a.hru + b.hru, sru := a.sru + b.sru }

/-- A stored reservation as the reporter sees it: its latest result (absent
if `wl.Result.IsNil()`), its derived capacity, and the deletion-intent flag
(the flag is part of the data model; `shouldCount` never reads it). -/
structure StoredWorkload where
  result : Option WLResult
  capacity : Capacity
  toDelete : Bool
deriving DecidableEq, Repr

/-- `Reporter.shouldCount` from src/cmds/modules/provisiond/reported.go
lines 169-184: count `ok` results always; count `deleted` results unless
the deletion result was created before `since`; count nothing else. -/
def shouldCount (since : Int) (result : WLResult) : Bool :=
  if result.state = ResultState.stateOk then
    true
  else if result.state = ResultState.deleted then
    if result.created < since then false else true
  else
    false

/-- One step of the inner loop of `Reporter.user`: skip reservations with
no result, add the capacity of those `shouldCount` accepts. -/
def addIfCounted (since : Int) (acc : Capacity) (wl : StoredWorkload) : Capacity :=
  match wl.result with
  | none => acc
  | some res => if shouldCount since res then acc.add wl.capacity else acc

/-- `Reporter.user` from src/cmds/modules/provisiond/reported.go: the
consumption capacity accumulated over all stored reservations of a user,
grouped by workload type (`byType` holds one list per workload type, as
produced by `storage.ByUser(user, typ)`). -/
def userConsumption (since : Int) (byType : List (List StoredWorkload)) : Capacity :=
  byType.foldl (fun acc wls => wls.foldl (addIfCounted since) acc) {}

/-- Sum of `capacity` over a list of stored reservations. -/
def capSum (wls : List StoredWorkload) : Capacity :=
  wls.foldl (fun acc wl => acc.add wl.capacity) {}

/-- The predicate of the claim: `result.state = ok` and `to_delete =
false`; reservations in any other state contribute nothing. -/
def claimCounted (wl : StoredWorkload) : Bool :=
  (match wl.result with
   | none => false
   | some res => res.state = ResultState.stateOk) && !wl.toDelete

/-- The predicate actually implemented: a result is present and is either
`ok`, or `deleted` with the deletion recorded at or after `since`. -/
def codeCounted (since : Int) (wl : StoredWorkload) : Bool :=
  match wl.result with
  | none => false
  | some res =>
      res.state = ResultState.stateOk ||
        (res.state = ResultState.deleted && decide (since ≤ res.created))

/-- A stored reservation whose result is `deleted`, recorded exactly at
the slot boundary 100, with `to_delete = false` and capacity 1 CRU. -/
def c2DeletedSample : StoredWorkload :=
  { result := some { state := ResultState.deleted, created := 100 },
    capacity := { cru := 1 },
    toDelete := false }

/-- C2 counterexample: a reservation whose result state is `deleted` (with
the deletion recorded at the slot boundary `since = 100`) and whose
`to_delete` flag is false is counted by the reporter, although the claim
says only `ok`-state reservations contribute (so the claimed sum differs
from the computed totals). -/
theorem c2_counterexample_deleted_is_counted :
    userConsumption 100 [[c2DeletedSample]] ≠
      capSum (([[c2DeletedSample]] :
        List (List StoredWorkload)).flatten.filter claimCounted) := by
  decide

/-- `shouldCount` agrees with the claim-language predicate `codeCounted`. -/
theorem shouldCount_eq_codeCounted (since : Int) (wl : StoredWorkload) :
    (match wl.result with
     | none => false
     | some res => shouldCount since res) = codeCounted since wl := by
  rcases wl with ⟨res, cap, del⟩
  cases res with
  | none => rfl
  | some r =>
      rcases r with ⟨st, created⟩
      cases st <;>
        by_cases hlt : created < since <;>
          simp [shouldCount, codeCounted, hlt] <;> omega

/-- Capacity addition is associative. -/
theorem Capacity.add_assoc (a b c : Capacity) :
    (a.add b).add c = a.add (b.add c) := by
  simp [Capacity.add]
  omega

/-- The empty capacity is a left unit for addition. -/
theorem Capacity.zero_add (a : Capacity) : Capacity.add {} a = a := by
  simp [Capacity.add]

/-- The empty capacity is a right unit for addition. -/
theorem Capacity.add_zero (a : Capacity) : a.add {} = a := by
  simp [Capacity.add]

/-- Folding capacity addition from an arbitrary accumulator. -/
theorem capFold_init (wls : List StoredWorkload) (a : Capacity) :
    wls.foldl (fun acc wl => acc.add wl.capacity) a = a.add (capSum wls) := by
  induction wls generalizing a with
  | nil => simp [capSum, Capacity.add_zero]
  | cons wl rest ih =>
      simp only [List.foldl_cons]
      rw [ih, show capSum (wl :: rest) = wl.capacity.add (capSum rest) by
        simp only [capSum, List.foldl_cons]
        rw [show Capacity.add {} wl.capacity = wl.capacity from Capacity.zero_add _]
        exact ih wl.capacity]
      rw [Capacity.add_assoc]

/-- Folding `addIfCounted` equals adding the capacity sum of the
reservations selected by `codeCounted`. -/
theorem foldl_addIfCounted (since : Int) (wls : List StoredWorkload) (acc : Capacity) :
    wls.foldl (addIfCounted since) acc =
      acc.add (capSum (wls.filter (codeCounted since))) := by
  induction wls generalizing acc with
  | nil => simp [capSum, Capacity.add_zero]
  | cons wl rest ih =>
      have hstep : addIfCounted since acc wl =
          if codeCounted since wl then acc.add wl.capacity else acc := by
        rcases wl with ⟨res, cap, del⟩
        cases res with
        | none => simp [addIfCounted, codeCounted]
        | some r =>
            have h := shouldCount_eq_codeCounted since ⟨some r, cap, del⟩
            simp only [addIfCounted]
            rw [show shouldCount since r = codeCounted since ⟨some r, cap, del⟩ from h]
      by_cases hc : codeCounted since wl
      · rw [List.foldl_cons, hstep, if_pos hc, ih, List.filter_cons_of_pos hc]
        rw [show capSum (wl :: rest.filter (codeCounted since)) =
            wl.capacity.add (capSum (rest.filter (codeCounted since))) by
          simp only [capSum, List.foldl_cons]
          rw [show Capacity.add {} wl.capacity = wl.capacity from Capacity.zero_add _]
          exact capFold_init _ _]
        rw [Capacity.add_assoc]
      · rw [List.foldl_cons, hstep, if_neg hc, ih, List.filter_cons_of_neg hc]

/-- C2 (amended): the reporter's consumption totals equal the sum of
`capacity` over exactly those stored reservations that carry a result
whose state is `ok`, or whose state is `deleted` with the deletion
recorded at or after the start `since` of the current reporting slot; the
`to_delete` flag is not consulted. -/
theorem c2_amended_consumption_eq_codeCounted_sum
    (since : Int) (byType : List (List StoredWorkload)) :
    userConsumption since byType =
      capSum (byType.flatten.filter (codeCounted since)) := by
  suffices h : ∀ (l : List (List StoredWorkload)) (acc : Capacity),
      l.foldl (fun acc wls => wls.foldl (addIfCounted since) acc) acc =
        acc.add (capSum (l.flatten.filter (codeCounted since))) by
    rw [userConsumption, h, Capacity.zero_add]
  intro l
  induction l with
  | nil => intro acc; simp [capSum, Capacity.add_zero]
  | cons wls rest ih =>
      intro acc
      simp only [List.foldl_cons]
      rw [ih, foldl_addIfCounted, Capacity.add_assoc, List.flatten_cons,
        List.filter_append]
      rw [show capSum (wls.filter (codeCounted since) ++
            (rest.flatten.filter (codeCounted since))) =
          (capSum (wls.filter (codeCounted since))).add
            (capSum (rest.flatten.filter (codeCounted since))) by
        simp only [capSum, List.foldl_append]
        exact capFold_init _ _]

/- ============================================================
   C10: Reservation.validate
   (src/tools/explorer/pkg/workloads/types/reservation.go lines 163-221).
   The five loops over containers, networks, zdbs, volumes and kubernetes
   share one `ids` set and fail on the first duplicate WorkloadId.  Only
   the fields `validate` reads are modelled; `json.Unmarshal` into
   `ReservationData` is abstracted as the parameter `decode`, and
   `reflect.DeepEqual` as structural equality.
   ============================================================ -/

/-- A container workload as far as `validate` reads it (its WorkloadId). -/
structure RContainer where
  workloadId : Int
deriving DecidableEq, Repr

/-- A network workload as far as `validate` reads it. -/
structure RNetwork where
  workloadId : Int
deriving DecidableEq, Repr

/-- A zdb workload as far as `validate` reads it. -/
structure RZdb where
  workloadId : Int
deriving DecidableEq, Repr

/-- A volume workload as far as `validate` reads it. -/
structure RVolume where
  workloadId : Int
deriving DecidableEq, Repr

/-- A kubernetes workload as far as `validate` reads it. -/
structure RK8s where
  workloadId : Int
deriving DecidableEq, Repr

/-- `generated.ReservationData`: the workload lists of a reservation. -/
structure ReservationData where
  containers : List RContainer
  networks : List RNetwork
  zdbs : List RZdb
  volumes : List RVolume
  kubernetes : List RK8s
deriving DecidableEq, Repr

/-- The fields of the explorer `Reservation` that `validate` reads. -/
structure FullReservation where
  customerTid : Int
  customerSignature : String
  json : String
  dataReservation : ReservationData
deriving DecidableEq, Repr

/-- One of the five duplicate-scan loops of `validate`: walk the workload
ids, failing on any id already in the shared `ids` set (modelled as a
list), and return the extended set. -/
def checkDups (seen : List Int) : List Int → Except String (List Int)
  | [] => Except.ok seen
  | x :: xs =>
      if x ∈ seen then Except.error "conflicting workload ID"
      else checkDups (x :: seen) xs

/-- `Reservation.validate` from
src/tools/explorer/pkg/workloads/types/reservation.go lines 163-221:
reject a zero customer id, an empty customer signature, undecodable json,
json that does not match `DataReservation`, and any WorkloadId occurring
twice across the five workload lists. -/
def FullReservation.validate (decode : String → Option ReservationData)
    (r : FullReservation) : Except String Unit :=
  if r.customerTid = 0 then Except.error "customer_tid is required"
  else if r.customerSignature.length = 0 then
    Except.error "customer_signature is required"
  else
    match decode r.json with
    | none => Except.error "invalid json data on reservation"
    | some data =>
        if data ≠ r.dataReservation then
          Except.error "json data does not match the reservation data"
        else do
          let s1 ← checkDups [] (r.dataReservation.containers.map (fun w => w.workloadId))
          let s2 ← checkDups s1 (r.dataReservation.networks.map (fun w => w.workloadId))
          let s3 ← checkDups s2 (r.dataReservation.zdbs.map (fun w => w.workloadId))
          let s4 ← checkDups s3 (r.dataReservation.volumes.map (fun w => w.workloadId))
          let _ ← checkDups s4 (r.dataReservation.kubernetes.map (fun w => w.workloadId))
          Except.ok ()

/-- All workload ids of a reservation's data, in the order the five scan
loops of `validate` visit them. -/
def allWorkloadIds (d : ReservationData) : List Int :=
  d.containers.map (fun w => w.workloadId) ++
    d.networks.map (fun w => w.workloadId) ++
    d.zdbs.map (fun w => w.workloadId) ++
    d.volumes.map (fun w => w.workloadId) ++
    d.kubernetes.map (fun w => w.workloadId)

/-- Scanning a concatenation is scanning the first part and continuing
with the resulting set. -/
theorem checkDups_append (l1 l2 : List Int) (seen : List Int) :
    checkDups seen (l1 ++ l2) =
      (checkDups seen l1).bind (fun s => checkDups s l2) := by
  induction l1 generalizing seen with
  | nil => rfl
  | cons x xs ih =>
      by_cases hx : x ∈ seen
      · simp [checkDups, hx, Except.bind]
      · simp only [List.cons_append, checkDups, if_neg hx]
        exact ih (x :: seen)

/-- A successful duplicate scan certifies that the scanned ids are
pairwise distinct and disjoint from the ids already seen. -/
theorem checkDups_ok_nodup (l : List Int) :
    ∀ (seen : List Int), (checkDups seen l).isOk = true →
      l.Nodup ∧ ∀ x ∈ l, x ∉ seen := by
  induction l with
  | nil => intro seen _; simp
  | cons x xs ih =>
      intro seen h
      by_cases hx : x ∈ seen
      · simp [checkDups, hx, Except.isOk, Except.toBool] at h
      · simp only [checkDups, if_neg hx] at h
        obtain ⟨hnodup, hdisj⟩ := ih (x :: seen) h
        refine ⟨List.nodup_cons.mpr ⟨fun hmem => ?_, hnodup⟩, ?_⟩
        · exact (hdisj x hmem) (List.mem_cons_self x seen)
        · intro y hy
          rcases List.mem_cons.mp hy with hy | hy
          · exact hy ▸ hx
          · intro hysee
            exact (hdisj y hy) (List.mem_cons_of_mem x hysee)

/-- `>>=` on `Except` is `Except.bind`. -/
theorem exceptBind_eq {e a b : Type} (x : Except e a) (f : a → Except e b) :
    x >>= f = x.bind f := rfl

/-- Associativity of `Except.bind`. -/
theorem exceptBind_assoc {e a b c : Type} (x : Except e a)
    (f : a → Except e b) (g : b → Except e c) :
    (x.bind f).bind g = x.bind (fun v => (f v).bind g) := by
  cases x <;> rfl

/-- The duplicate scan of `validate` is the scan of the concatenated id
list starting from the empty set. -/
theorem validate_scan_eq (decode : String → Option ReservationData)
    (r : FullReservation) (htid : ¬ r.customerTid = 0)
    (hsig : ¬ r.customerSignature.length = 0)
    (data : ReservationData) (hdec : decode r.json = some data)
    (heq : data = r.dataReservation) :
    r.validate decode =
      (checkDups [] (allWorkloadIds r.dataReservation)).bind
        (fun _ => Except.ok ()) := by
  simp only [FullReservation.validate, if_neg htid, if_neg hsig, hdec, heq]
  simp only [ne_eq, not_true_eq_false, if_false, ite_false]
  simp only [allWorkloadIds, checkDups_append, exceptBind_eq, exceptBind_assoc]

/-- C10: every reservation accepted by `validate` has pairwise-distinct
workload ids across containers, networks, zdbs, volumes and kubernetes
(equivalently, `validate` errors whenever two workloads share an id). -/
theorem c10_validate_ok_implies_nodup_ids
    (decode : String → Option ReservationData) (r : FullReservation)
    (h : (r.validate decode).isOk = true) :
    (allWorkloadIds r.dataReservation).Nodup := by
  by_cases htid : r.customerTid = 0
  · simp [FullReservation.validate, htid, Except.isOk, Except.toBool] at h
  by_cases hsig : r.customerSignature.length = 0
  · simp [FullReservation.validate, htid, hsig, Except.isOk, Except.toBool] at h
  rcases hdec : decode r.json with _ | data
  · simp [FullReservation.validate, htid, hsig, hdec, Except.isOk, Except.toBool] at h
  by_cases heq : data = r.dataReservation
  · rw [validate_scan_eq decode r htid hsig data hdec heq] at h
    rcases hscan : checkDups [] (allWorkloadIds r.dataReservation) with e | s
    · rw [hscan] at h; simp [Except.bind, Except.isOk, Except.toBool] at h
    · exact (checkDups_ok_nodup _ [] (by rw [hscan]; rfl)).1
  · simp [FullReservation.validate, htid, hsig, hdec, heq, Except.isOk,
      Except.toBool] at h

/-- A concrete reservation with distinct workload ids across all five
lists, together with a decode function accepting its json. -/
def c10Sample : FullReservation :=
  { customerTid := 7,
    customerSignature := "aabb",
    json := "body",
    dataReservation :=
      { containers := [{ workloadId := 1 }, { workloadId := 2 }],
        networks := [{ workloadId := 3 }],
        zdbs := [{ workloadId := 4 }],
        volumes := [{ workloadId := 5 }],
        kubernetes := [{ workloadId := 6 }] } }

/-- C10 witness: the sample reservation passes `validate` and the theorem
yields distinct ids. -/
theorem c10_validate_witness :
    (c10Sample.validate (fun _ => some c10Sample.dataReservation)).isOk = true ∧
      (allWorkloadIds c10Sample.dataReservation).Nodup :=
  ⟨by decide,
   c10_validate_ok_implies_nodup_ids (fun _ => some c10Sample.dataReservation)
     c10Sample (by decide)⟩

/- ============================================================
   C8: SerializeSeed / LoadSeed (src/unnamed/part_008, package identity).
   Go's ed25519: a private key is 64 bytes, seed (32 bytes) followed by
   the public key (32 bytes); `PrivateKey.Seed()` is the first 32 bytes
   and `NewKeyFromSeed(seed)` is `seed ++ pub(seed)` where `pub` derives
   the public key point from the seed.  `pub` is kept abstract as a
   parameter producing 32 bytes; bytes are Nats.  The file at `path` is
   modelled by its contents: `SerializeSeed` returns the bytes written and
   `LoadSeed` takes the bytes read.
   ============================================================ -/

/-- `identity.KeyPair` from src/unnamed/part_008. -/
structure KeyPair where
  privateKey : List Nat
  publicKey : List Nat
deriving DecidableEq, Repr

/-- `ed25519.NewKeyFromSeed`: the private key is the seed followed by the
derived public key; the Go `GenerateKeyPair`/`LoadSeed` paths both build
key pairs of this shape. -/
def newKeyFromSeed (pub : List Nat → List Nat) (seed : List Nat) : KeyPair :=
  { privateKey := seed ++ pub seed, publicKey := pub seed }

/-- `PrivateKey.Seed()`: the first 32 bytes of the private key. -/
def seedOf (k : KeyPair) : List Nat := k.privateKey.take 32

/-- `SerializeSeed` from src/unnamed/part_008: writes the key pair's seed
to the file; the value is the file content written. -/
def SerializeSeed (keypair : KeyPair) : List Nat := seedOf keypair

/-- `LoadSeed` from src/unnamed/part_008: fails unless the file content is
exactly `ed25519.SeedSize` (32) bytes, then rebuilds the key pair from the
seed; the public key is copied from bytes 32.. of the private key. -/
def LoadSeed (pub : List Nat → List Nat) (content : List Nat) : Except String KeyPair :=
  if content.length ≠ 32 then
    Except.error "seed has the wrong size"
  else
    let privateKey := (newKeyFromSeed pub content).privateKey
    Except.ok { privateKey := privateKey, publicKey := privateKey.drop 32 }

/-- C8: writing the seed of a generated key pair and loading it back
reconstructs a key pair whose private and public keys are byte-for-byte
the originals, and `LoadSeed` fails on any content that is not exactly 32
bytes long. -/
theorem c8_seed_roundtrip (pub : List Nat → List Nat) (seed : List Nat)
    (hseed : seed.length = 32) :
    LoadSeed pub (SerializeSeed (newKeyFromSeed pub seed)) =
        Except.ok (newKeyFromSeed pub seed) ∧
      ∀ content : List Nat, content.length ≠ 32 →
        ∃ e, LoadSeed pub content = Except.error e := by
  constructor
  · have htake : SerializeSeed (newKeyFromSeed pub seed) = seed := by
      simp only [SerializeSeed, seedOf, newKeyFromSeed]
      exact List.take_left' hseed
    rw [htake]
    simp only [LoadSeed, hseed, ne_eq, not_true_eq_false, if_false, ite_false]
    have hdrop : ((newKeyFromSeed pub seed).privateKey).drop 32 = pub seed := by
      simp only [newKeyFromSeed]
      exact List.drop_left' hseed
    rw [hdrop]
    rfl
  · intro content hlen
    exact ⟨"seed has the wrong size", by simp [LoadSeed, hlen]⟩

/-- C8 witness: the round trip evaluated on a concrete 32-byte seed with a
concrete derivation function, plus a failing 5-byte load. -/
theorem c8_seed_roundtrip_witness :
    LoadSeed (fun s => s.reverse) (SerializeSeed (newKeyFromSeed (fun s => s.reverse) (List.range 32))) =
        Except.ok (newKeyFromSeed (fun s => s.reverse) (List.range 32)) ∧
      ∃ e, LoadSeed (fun s => s.reverse) [1, 2, 3, 4, 5] = Except.error e :=
  ⟨(c8_seed_roundtrip (fun s => s.reverse) (List.range 32) (by decide)).1,
   (c8_seed_roundtrip (fun s => s.reverse) (List.range 32) (by decide)).2
     [1, 2, 3, 4, 5] (by decide)⟩

/- ============================================================
   C3: Poller.Poll (src/pkg/provision/explorer/source.go lines 33-58).
   Poll converts each retrieved workload via `inputConv` (failing fast on
   a conversion error) and then sorts the result with
     sort.Slice(result, func(i, j) \x7b
         return provisionOrder[result[i].Type] < provisionOrder[result[j].Type]
     \x7d)
   `provisionOrder` is a Go map, modelled as a total function (a missing
   key yields the zero value).  For slices of at most 6 elements,
   sort.Slice of the Go standard library is a plain insertion sort, which
   is the stable sort modelled here by `List.insertionSort` with the
   keep-in-place relation "not (comparator says the right element is
   smaller)"; the counterexample below uses 2 elements, where both
   algorithms coincide exactly (swap iff less(1, 0)).  The returned
   `lastID` cursor is not modelled; no claim touches it.
   ============================================================ -/

/-- A converted reservation as the Poller orders it: its type, creation
timestamp and id. -/
structure PolledReservation where
  typ : String
  created : Int
  id : String
deriving DecidableEq, Repr

/-- The sort.Slice comparator of `Poller.Poll`:
`provisionOrder[result[i].Type] < provisionOrder[result[j].Type]`. -/
def pollLess (order : String → Int) (a b : PolledReservation) : Prop :=
  order a.typ < order b.typ

instance (order : String → Int) (a b : PolledReservation) :
    Decidable (pollLess order a b) :=
  inferInstanceAs (Decidable (order a.typ < order b.typ))

/-- The sorting step of `Poller.Poll` (stable sort under the comparator,
as Go's sort.Slice is for at most 6 elements). -/
def pollSort (order : String → Int) (l : List PolledReservation) : List PolledReservation :=
  List.insertionSort (fun a b => ¬ pollLess order b a) l

instance (order : String → Int) :
    DecidableRel (fun a b : PolledReservation => ¬ pollLess order b a) :=
  fun _ _ => inferInstanceAs (Decidable (¬ _ < _))

/-- `Poller.Poll` from src/pkg/provision/explorer/source.go: convert every
retrieved workload (failing fast) and sort by the configured type
priority. -/
def Poll {W : Type} (conv : W → Except String PolledReservation)
    (order : String → Int) (ws : List W) : Except String (List PolledReservation) :=
  (ws.mapM conv).map (fun result => pollSort order result)

/-- The ordering the claim asserts within a type: ascending `created_at`,
ties broken by `id` lexicographically. -/
def createdOrderedWithinType (l : List PolledReservation) : Prop :=
  l.Pairwise (fun a b => a.typ = b.typ →
    a.created < b.created ∨ (a.created = b.created ∧ a.id ≤ b.id))

/-- A same-type reservation created later than `c3Earlier`. -/
def c3Later : PolledReservation :=
  { typ := "volume", created := 10, id := "b" }

/-- A same-type reservation created earlier than `c3Later`. -/
def c3Earlier : PolledReservation :=
  { typ := "volume", created := 5, id := "a" }

/-- C3 counterexample: polling the batch [later, earlier] of two same-type
reservations returns them unchanged — the comparator consults only the
type priority, so the earlier-created reservation does not precede the
later-created one. -/
theorem c3_counterexample_same_type_not_reordered :
    Poll Except.ok (fun _ => 0) [c3Later, c3Earlier] =
        Except.ok [c3Later, c3Earlier] ∧
      c3Earlier.typ = c3Later.typ ∧
      c3Earlier.created < c3Later.created ∧
      ¬ createdOrderedWithinType [c3Later, c3Earlier] := by
  refine ⟨rfl, rfl, by decide, ?_⟩
  intro h
  rcases List.pairwise_cons.mp h with ⟨hab, _⟩
  have := hab c3Earlier (List.mem_singleton.mpr rfl) rfl
  revert this
  decide

/-- C3 (amended): `Poller.Poll` orders a successfully converted batch by
ascending configured type-priority value only — the output is a
permutation of the converted input that is sorted by
`provisionOrder[Type]`; `created_at` and `id` play no role. -/
theorem c3_amended_poll_sorts_by_type_priority {W : Type}
    (conv : W → Except String PolledReservation) (order : String → Int)
    (ws : List W) (out : List PolledReservation)
    (h : Poll conv order ws = Except.ok out) :
    (∃ converted, ws.mapM conv = Except.ok converted ∧ out.Perm converted) ∧
      List.Sorted (fun a b => order a.typ ≤ order b.typ) out := by
  rcases hm : ws.mapM conv with e | converted
  · rw [Poll, hm] at h; exact absurd h (by simp [Except.map])
  · rw [Poll, hm] at h
    simp only [Except.map, Except.ok.injEq] at h
    subst h
    constructor
    · exact ⟨converted, rfl, List.perm_insertionSort _ _⟩
    · haveI : IsTotal PolledReservation (fun a b => ¬ pollLess order b a) :=
        ⟨by intro a b; simp only [pollLess]; omega⟩
      haveI : IsTrans PolledReservation (fun a b => ¬ pollLess order b a) :=
        ⟨by intro a b c; simp only [pollLess]; omega⟩
      have hs := List.sorted_insertionSort
        (fun a b : PolledReservation => ¬ pollLess order b a) converted
      exact hs.imp (by intro a b hab; simp only [pollLess] at hab; omega)

/-- A type-priority map assigning every type the same priority (as the Go
map does for types it does not contain). -/
def c3Order : String → Int := fun _ => 0

/-- The identity conversion used by the concrete C3 scenarios. -/
def c3Conv : PolledReservation → Except String PolledReservation := Except.ok

/-- C3 witness: the amended theorem applied to the concrete two-element
batch of the counterexample. -/
theorem c3_amended_witness :
    (∃ converted,
        List.mapM c3Conv [c3Later, c3Earlier] = Except.ok converted ∧
          List.Perm [c3Later, c3Earlier] converted) ∧
      List.Sorted (fun a b => c3Order a.typ ≤ c3Order b.typ)
        [c3Later, c3Earlier] :=
  c3_amended_poll_sorts_by_type_priority c3Conv c3Order
    [c3Later, c3Earlier] [c3Later, c3Earlier] rfl

/- ============================================================
   C5: runtime_upgrade before the engine main loop
   (src/cmds/modules/provisiond/main.go, `action`, lines 214-225).
   `action` is straight-line code; it is embedded as the sequence of steps
   it executes, in source order.  A step marked `true` can stop the
   sequence (an error causes an early return, or the step can block
   forever: the limited-cache wait, the orphan select, the networkd wait,
   and the final ListenAndServe).  `fails k` says whether the k-th such
   stoppable step stops the run.  `provisioners.RuntimeUpgrade(ctx)` is a
   plain synchronous call, so its step completes before any later step
   starts; `go engine.Run(ctx)` is the start of the engine main loop.
   ============================================================ -/

/-- The steps of provisiond `action`, in source order. -/
inductive StartupStep where
  | limitedCacheWait
  | mkdirRoot
  | environmentGet
  | orphanCheck
  | newRedisServer
  | newRedisClient
  | identityNodeID
  | networkReadyWait
  | newFSStore
  | newPrimitivesProvisioner
  | nodeReserved
  | capacityTotal
  | newStatistics
  | newStatisticsAPI
  | newSubstrateTwins
  | newSubstrateAdmins
  | mkdirQueues
  | provisionNew
  | serverRegister
  | runtimeUpgrade
  | engineRun
  | markBooted
  | newReported
  | reporterRun
  | serverRun
  | setupAPIs
  | httpListen
deriving DecidableEq, Repr

/-- `action` from src/cmds/modules/provisiond/main.go as an ordered step
list; the Bool marks the steps at which the run can stop (error return or
indefinite blocking). -/
def actionSteps : List (StartupStep × Bool) :=
  [(StartupStep.limitedCacheWait, true),
   (StartupStep.mkdirRoot, true),
   (StartupStep.environmentGet, true),
   (StartupStep.orphanCheck, true),
   (StartupStep.newRedisServer, true),
   (StartupStep.newRedisClient, true),
   (StartupStep.identityNodeID, false),
   (StartupStep.networkReadyWait, true),
   (StartupStep.newFSStore, true),
   (StartupStep.newPrimitivesProvisioner, false),
   (StartupStep.nodeReserved, true),
   (StartupStep.capacityTotal, true),
   (StartupStep.newStatistics, false),
   (StartupStep.newStatisticsAPI, true),
   (StartupStep.newSubstrateTwins, true),
   (StartupStep.newSubstrateAdmins, true),
   (StartupStep.mkdirQueues, true),
   (StartupStep.provisionNew, true),
   (StartupStep.serverRegister, false),
   (StartupStep.runtimeUpgrade, false),
   (StartupStep.engineRun, false),
   (StartupStep.markBooted, false),
   (StartupStep.newReported, true),
   (StartupStep.reporterRun, false),
   (StartupStep.serverRun, false),
   (StartupStep.setupAPIs, true),
   (StartupStep.httpListen, true)]

/-- Executes a step list: a stoppable step either stops the run (empty
remainder) or completes; every completed step is recorded in order. -/
def runSteps (fails : Nat → Bool) : List (StartupStep × Bool) → Nat → List StartupStep
  | [], _ => []
  | (s, stoppable) :: rest, k =>
      if stoppable then
        if fails k then [] else s :: runSteps fails rest (k + 1)
      else
        s :: runSteps fails rest k

/-- The trace of steps a run of `action` completes, given which stoppable
steps stop it. -/
def actionTrace (fails : Nat → Bool) : List StartupStep :=
  runSteps fails actionSteps 0

/-- The full step sequence of `action` when nothing stops it. -/
def actionStepNames : List StartupStep := actionSteps.map Prod.fst

/-- Every trace of a step list is a prefix (`take n`) of the full step
sequence. -/
theorem runSteps_eq_take (fails : Nat → Bool) :
    ∀ (l : List (StartupStep × Bool)) (k : Nat),
      ∃ n, runSteps fails l k = (l.map Prod.fst).take n := by
  intro l
  induction l with
  | nil => intro k; exact ⟨0, rfl⟩
  | cons p rest ih =>
      intro k
      rcases p with ⟨s, stoppable⟩
      cases stoppable with
      | true =>
          by_cases hf : fails k
          · exact ⟨0, by simp [runSteps, hf]⟩
          · obtain ⟨n, hn⟩ := ih (k + 1)
            exact ⟨n + 1, by simp [runSteps, hf, hn]⟩
      | false =>
          obtain ⟨n, hn⟩ := ih k
          exact ⟨n + 1, by simp [runSteps, hn]⟩

/-- C5: in every run of `action` whose engine main loop starts, the
`runtime_upgrade` hook was invoked exactly once, and its step completed
before the engine main loop step. -/
theorem c5_runtime_upgrade_once_before_engine (fails : Nat → Bool)
    (h : StartupStep.engineRun ∈ actionTrace fails) :
    (actionTrace fails).count StartupStep.runtimeUpgrade = 1 ∧
      (actionTrace fails).indexOf StartupStep.runtimeUpgrade <
        (actionTrace fails).indexOf StartupStep.engineRun := by
  obtain ⟨n, hn⟩ := runSteps_eq_take fails actionSteps 0
  have hTrace : actionTrace fails = actionStepNames.take n := hn
  have hlen : actionStepNames.length = 27 := by decide
  have hmin : actionStepNames.take n = actionStepNames.take (min n 27) := by
    rw [List.take_eq_take]
    simp [hlen]
  have hbound : min n 27 < 28 := Nat.lt_succ_of_le (Nat.min_le_right n 27)
  have key : ∀ m : Fin 28,
      StartupStep.engineRun ∈ actionStepNames.take m.val →
        (actionStepNames.take m.val).count StartupStep.runtimeUpgrade = 1 ∧
          (actionStepNames.take m.val).indexOf StartupStep.runtimeUpgrade <
            (actionStepNames.take m.val).indexOf StartupStep.engineRun := by
    decide
  rw [hTrace, hmin] at h ⊢
  exact key ⟨min n 27, hbound⟩ h

/-- C5 witness: the theorem applied to the run in which nothing stops the
startup sequence. -/
theorem c5_runtime_upgrade_once_before_engine_witness :
    (actionTrace (fun _ => false)).count StartupStep.runtimeUpgrade = 1 ∧
      (actionTrace (fun _ => false)).indexOf StartupStep.runtimeUpgrade <
        (actionTrace (fun _ => false)).indexOf StartupStep.engineRun :=
  c5_runtime_upgrade_once_before_engine (fun _ => false) (by decide)

/- ============================================================
   C4: idempotent submission
   (src/modules/provision/container.go lines 45-62, ContainerProvision).
   The zbus-backed collaborators (container Inspect/Run, network Join,
   flist Mount/Umount, cache OwnerOf, storage Path) are abstracted as an
   environment of fallible functions, and the deployment actions the
   claim names (network join, flist mount, container run, plus the
   compensating unmount) are recorded as effects.  `os.MkdirAll` and the
   `path.Join("/", ...)` cleaning of the mountpoint are not modelled; no
   claim depends on them.  The engine-side Create handler (Store.add with
   AlreadyExists treated as idempotent accept) lives outside src/ and is
   modelled from the spec below.
   ============================================================ -/

/-- What `ContainerProvision` needs of an inspected container. -/
structure ContainerInfo where
  name : String
deriving DecidableEq, Repr

/-- A container volume mount request (`Mount` in the source). -/
structure ContainerMount where
  volumeId : String
  mountpoint : String
deriving DecidableEq, Repr

/-- `Container` creation info from src/modules/provision/container.go. -/
structure ContainerCfg where
  flist : String
  env : List (String × String)
  entrypoint : String
  interactive : Bool
  mounts : List ContainerMount
  networkId : String
deriving DecidableEq, Repr

/-- The deployment actions `ContainerProvision` can perform. -/
inductive Effect where
  | networkJoin (netId : String)
  | flistMount (flist : String)
  | containerRun (name : String)
  | flistUmount (path : String)
deriving DecidableEq, Repr

/-- The external collaborators of `ContainerProvision`, as fallible
functions: `inspect tenantNS containerID`, `unmarshal` of the reservation
data, network `join`, flist `mount`, volume `ownerOf` and `storagePath`,
and container `run name rootfs`. -/
structure ProvisionEnv where
  inspect : String → String → Except String ContainerInfo
  unmarshal : String → Except String ContainerCfg
  join : String → Except String String
  mount : String → Except String String
  ownerOf : String → Except String String
  storagePath : String → Except String String
  run : String → String → Except String String

/-- The fields of the provision `Reservation` that `ContainerProvision`
reads. -/
structure ProvisionReservation where
  id : String
  user : String
  data : String
deriving DecidableEq, Repr

/-- `fmt.Sprintf("ns%s", reservation.User)`. -/
def tenantNS (user : String) : String := "ns" ++ user

/-- The mounts loop of `ContainerProvision`: check volume ownership and
resolve each volume path, failing fast; yields (source, target) pairs. -/
def processMounts (env : ProvisionEnv) (user : String) :
    List ContainerMount → Except String (List (String × String))
  | [] => Except.ok []
  | m :: rest =>
      match env.ownerOf m.volumeId with
      | Except.error e => Except.error e
      | Except.ok owner =>
          if owner ≠ user then
            Except.error ("cannot use volume, user is not the owner of it")
          else
            match env.storagePath m.volumeId with
            | Except.error e => Except.error e
            | Except.ok source =>
                match processMounts env user rest with
                | Except.error e => Except.error e
                | Except.ok tail => Except.ok ((source, m.mountpoint) :: tail)

/-- `ContainerProvision` from src/modules/provision/container.go: if the
workload is already deployed (Inspect succeeds) return the existing
container id with no deployment action; otherwise decode the config, join
the network, mount the flist, resolve the mounts, and run the container
(unmounting the flist if the run fails).  The second component lists the
deployment actions performed, in order. -/
def ContainerProvision (env : ProvisionEnv) (r : ProvisionReservation) :
    Except String String × List Effect :=
  match env.inspect (tenantNS r.user) r.id with
  | Except.ok _ => (Except.ok r.id, [])
  | Except.error _ =>
      match env.unmarshal r.data with
      | Except.error e => (Except.error e, [])
      | Except.ok config =>
          match env.join config.networkId with
          | Except.error e => (Except.error e, [Effect.networkJoin config.networkId])
          | Except.ok _ =>
              match env.mount config.flist with
              | Except.error e =>
                  (Except.error e,
                   [Effect.networkJoin config.networkId, Effect.flistMount config.flist])
              | Except.ok mnt =>
                  match processMounts env r.user config.mounts with
                  | Except.error e =>
                      (Except.error e,
                       [Effect.networkJoin config.networkId, Effect.flistMount config.flist])
                  | Except.ok _ =>
                      match env.run r.id mnt with
                      | Except.error e =>
                          (Except.error e,
                           [Effect.networkJoin config.networkId,
                            Effect.flistMount config.flist,
                            Effect.containerRun r.id,
                            Effect.flistUmount mnt])
                      | Except.ok newId =>
                          (Except.ok newId,
                           [Effect.networkJoin config.networkId,
                            Effect.flistMount config.flist,
                            Effect.containerRun r.id])

/-- The engine-side state the Create handler touches: the set of stored
reservation ids and the total capacity units charged. -/
structure EngineState where
  storeIds : List String
  reserved : Nat
deriving DecidableEq, Repr

/-- Modelled from the spec: the Engine Create handler of §4.5 (the
provision engine package is not under src/).  "Compute capacity ... call
`Statistics.reserve` ... `Store.add`.  If `AlreadyExists`, treat as
idempotent accept and stop (do not double-charge capacity)." -/
def submit (s : EngineState) (id : String) (cap : Nat) : EngineState :=
  if id ∈ s.storeIds then s
  else { storeIds := id :: s.storeIds, reserved := s.reserved + cap }

/-- C4: submitting twice equals submitting once.  (1) A provision call for
a reservation whose workload is already deployed returns success with the
existing workload identifier and performs no deployment action; (2) the
spec-modelled Create handler is idempotent and charges capacity only
once. -/
theorem c4_resubmission_is_noop :
    (∀ (env : ProvisionEnv) (r : ProvisionReservation) (info : ContainerInfo),
        env.inspect (tenantNS r.user) r.id = Except.ok info →
          ContainerProvision env r = (Except.ok r.id, [])) ∧
      (∀ (s : EngineState) (id : String) (cap : Nat),
        submit (submit s id cap) id cap = submit s id cap) := by
  constructor
  · intro env r info h
    simp [ContainerProvision, h]
  · intro s id cap
    by_cases hmem : id ∈ s.storeIds
    · simp [submit, hmem]
    · simp only [submit, if_neg hmem]
      rw [if_pos (List.mem_cons_self id s.storeIds)]

/-- An environment whose inspect reports the container as already
deployed; every other collaborator rejects, so any deployment attempt
would be visible. -/
def c4Env : ProvisionEnv :=
  { inspect := fun _ _ => Except.ok { name := "running" },
    unmarshal := fun _ => Except.error "unused",
    join := fun _ => Except.error "unused",
    mount := fun _ => Except.error "unused",
    ownerOf := fun _ => Except.error "unused",
    storagePath := fun _ => Except.error "unused",
    run := fun _ _ => Except.error "unused" }

/-- C4 witness: the theorem applied to a concrete already-deployed
reservation and a concrete engine state. -/
theorem c4_resubmission_is_noop_witness :
    ContainerProvision c4Env { id := "r1", user := "u1", data := "d" } =
        (Except.ok "r1", []) ∧
      submit (submit { storeIds := [], reserved := 0 } "r1" 3) "r1" 3 =
        submit { storeIds := [], reserved := 0 } "r1" 3 :=
  ⟨c4_resubmission_is_noop.1 c4Env { id := "r1", user := "u1", data := "d" }
      { name := "running" } rfl,
   c4_resubmission_is_noop.2 { storeIds := [], reserved := 0 } "r1" 3⟩

/- ============================================================
   C7: the retry loop of createZdbContainer
   (src/modules/provision/container.go lines 426-447, second document):
     bo := backoff.NewExponentialBackOff()
     bo.MaxInterval = time.Minute * 2
     backoff.RetryNotify(getIP, bo, nil)
   modelled together with cenkalti/backoff v3.0.0 (the dependency pinned
   in the go.mod under src/unnamed/part_000).  NewExponentialBackOff
   defaults: InitialInterval 500ms, RandomizationFactor 0.5, Multiplier
   1.5, MaxElapsedTime 15min; the code overrides only MaxInterval.
   Durations are Nats in nanoseconds.  NextBackOff returns Stop once the
   elapsed time exceeds MaxElapsedTime (it is not set to 0 here, unlike
   the networkd wait in provisiond's main.go); otherwise it returns a
   randomized value around currentInterval.  The random draw is fixed at
   the midpoint 0.5, where
   getRandomValueFromInterval(0.5, 0.5, ci) = Duration(ci + 0.5) = ci
   exactly; incrementCurrentInterval computes
   Duration(float64(ci) * 1.5), exact over float64 in this range, i.e.
   3*ci/2 in Nat arithmetic, capped at MaxInterval once
   ci >= MaxInterval/1.5.  The operation itself is instantaneous, so the
   elapsed time is the sum of the waits performed so far.
   ============================================================ -/

/-- `bo.MaxInterval = time.Minute * 2` in nanoseconds. -/
def zdbMaxInterval : Nat := 120000000000

/-- backoff.DefaultInitialInterval (500ms) in nanoseconds. -/
def defaultInitialInterval : Nat := 500000000

/-- backoff.DefaultMaxElapsedTime (15 minutes) in nanoseconds. -/
def defaultMaxElapsedTime : Nat := 900000000000

/-- `ExponentialBackOff.incrementCurrentInterval` with Multiplier 1.5 and
MaxInterval 2 minutes: cap once the next multiplication would overshoot,
otherwise multiply by 1.5 (Duration conversion truncates). -/
def incrementCurrentInterval (ci : Nat) : Nat :=
  if ci ≥ zdbMaxInterval * 2 / 3 then zdbMaxInterval
  else 3 * ci / 2

/-- One address as `isPublic` inspects it
(src/modules/provision/container.go, second document). -/
structure NetIP where
  isV4 : Bool
  loopback : Bool
  linkLocalUnicast : Bool
  linkLocalMulticast : Bool
  interfaceLocalMulticast : Bool
deriving DecidableEq, Repr

/-- `isPublic`: an IPv6 address that is none of loopback, link-local
unicast, link-local multicast, interface-local multicast. -/
def isPublic (ip : NetIP) : Bool :=
  !ip.isV4 &&
    !(ip.loopback || ip.linkLocalUnicast || ip.linkLocalMulticast ||
      ip.interfaceLocalMulticast)

/-- The `getIP` closure of `createZdbContainer`: succeed on the first
public address of the 0-db container's interface, error otherwise. -/
def getIP (ips : List NetIP) : Except String NetIP :=
  match ips.find? isPublic with
  | some ip => Except.ok ip
  | none => Except.error "not up public found, waiting"

/-- Outcome of `backoff.RetryNotify`. -/
inductive RetryResult where
  | succeeded
  | gaveUp
  | outOfFuel
deriving DecidableEq, Repr

/-- `backoff.RetryNotify(op, bo, nil)` for the zdb backoff configuration:
run the operation; on failure consult NextBackOff, which returns Stop
(give up) once the elapsed time exceeds MaxElapsedTime and otherwise
waits `ci` (midpoint randomization) before the next attempt.  `fuel`
bounds the number of modelled iterations; `opOk n` tells whether the n-th
attempt succeeds. -/
def retryNotify (opOk : Nat → Bool) : Nat → Nat → Nat → Nat → RetryResult
  | 0, _, _, _ => RetryResult.outOfFuel
  | fuel + 1, n, elapsed, ci =>
      if opOk n then RetryResult.succeeded
      else if elapsed > defaultMaxElapsedTime then RetryResult.gaveUp
      else retryNotify opOk fuel (n + 1) (elapsed + ci) (incrementCurrentInterval ci)

/-- An interface with only a loopback IPv6 address: no public IP is ever
found, so every `getIP` attempt fails. -/
def c7NoPublicIPs : List NetIP :=
  [{ isV4 := false, loopback := true, linkLocalUnicast := false,
     linkLocalMulticast := false, interfaceLocalMulticast := false }]

/-- C7 counterexample: with no public IP ever appearing, the retry loop of
`createZdbContainer` does not retry forever — it gives up (NextBackOff
returns Stop) once the default 15-minute MaxElapsedTime is exceeded,
within 30 iterations. -/
theorem c7_counterexample_retry_gives_up :
    retryNotify (fun _ => (getIP c7NoPublicIPs).isOk) 30 0 0
        defaultInitialInterval = RetryResult.gaveUp := by
  decide

/-- A run against an always-failing operation equals a run against the
constantly-false one. -/
theorem retryNotify_const_false (opOk : Nat → Bool) (h : ∀ n, opOk n = false) :
    ∀ (fuel n elapsed ci : Nat),
      retryNotify opOk fuel n elapsed ci =
        retryNotify (fun _ => false) fuel n elapsed ci := by
  intro fuel
  induction fuel with
  | zero => intro n elapsed ci; rfl
  | succ f ih =>
      intro n elapsed ci
      simp only [retryNotify, h n]
      by_cases he : elapsed > defaultMaxElapsedTime
      · simp [he]
      · simp only [if_neg he]
        exact ih (n + 1) (elapsed + ci) (incrementCurrentInterval ci)

/-- C7 (amended): the retry of `createZdbContainer` waits with exponential
backoff whose interval never exceeds the configured 2-minute cap, but it
does give up on its own: with the default 15-minute MaxElapsedTime left
in place, any operation that keeps failing makes the loop return an error
after finitely many attempts (here within 30). -/
theorem c7_amended_backoff_capped_but_finite :
    (∀ ci : Nat, ci ≤ zdbMaxInterval →
        incrementCurrentInterval ci ≤ zdbMaxInterval) ∧
      (∀ opOk : Nat → Bool, (∀ n, opOk n = false) →
        retryNotify opOk 30 0 0 defaultInitialInterval = RetryResult.gaveUp) := by
  constructor
  · intro ci hci
    simp only [incrementCurrentInterval, zdbMaxInterval] at *
    split
    · omega
    · omega
  · intro opOk h
    rw [retryNotify_const_false opOk h]
    decide

/-- C7 witness: the amended theorem evaluated at the initial interval and
at the constantly failing operation. -/
theorem c7_amended_backoff_capped_but_finite_witness :
    incrementCurrentInterval defaultInitialInterval ≤ zdbMaxInterval ∧
      retryNotify (fun _ => false) 30 0 0 defaultInitialInterval =
        RetryResult.gaveUp :=
  ⟨c7_amended_backoff_capped_but_finite.1 defaultInitialInterval (by decide),
   c7_amended_backoff_capped_but_finite.2 (fun _ => false) (fun _ => rfl)⟩
